import Mathlib

/-!
Verification of the riquest repository (a single-function Node.js HTTP(S)
request helper) against its natural-language specification.

The development shallowly embeds the two implementation variants:
  * `src/index.js` (hand-rolled validator, zero dependencies) — functions
    `validateHttpParams`, `canParseInt`, `isNil`, `isError`, `attempt`,
    `capitalize`, `isObject`, `removeNilValue` and the exported request
    function, embedded here as `riquest`;
  * `src/unnamed/part_001` (Joi schema validator, lodash/fp helpers),
    embedded here as `riquest2`.

JavaScript dynamic values are modelled by the inductive `JSVal`.  JS numbers
are modelled as integers (`Int`); the float-only values NaN/Infinity are
outside the model.  A JS object containing a reference cycle — the one way
`JSON.stringify` can fail on plain data objects — is modelled by the opaque
constructor `JSVal.circular`.

External collaborators (the WHATWG URL parser, `JSON.parse`, and the
transport selected from the `protocols` table) are parameters of the
embedded request function, exactly as §6 of the spec treats them as
external, unspecified collaborators.  Built-in language facilities used by
the source (`Object.assign`, `parseInt`, `String(...)` coercion,
`JSON.stringify`, `typeof`, truthiness) are embedded by their standard
semantics below.
-/

namespace Riquest

/-- A JavaScript runtime value, as far as the riquest source observes one.
`circular` stands for a plain object that contains a reference cycle
(`typeof` "object", truthy, not an array), which is the input that makes
`JSON.stringify` throw. -/
inductive JSVal : Type where
  | undefined : JSVal
  | null : JSVal
  | bool : Bool → JSVal
  | num : Int → JSVal
  | str : String → JSVal
  | arr : List JSVal → JSVal
  | obj : List (String × JSVal) → JSVal
  | circular : JSVal

/-- JS `typeof` operator on the modelled values. -/
def typeofJS : JSVal → String
  | .undefined => "undefined"
  | .null => "object"
  | .bool _ => "boolean"
  | .num _ => "number"
  | .str _ => "string"
  | .arr _ => "object"
  | .obj _ => "object"
  | .circular => "object"

/-- `isNil` from src/index.js: `val === null || typeof val === 'undefined'`. -/
def isNilJ : JSVal → Bool
  | .null => true
  | .undefined => true
  | _ => false

/-- `isObject` from src/index.js:
`!isNil(obj) && !Array.isArray(obj) && typeof obj === 'object'`. -/
def isObjectJ : JSVal → Bool
  | .obj _ => true
  | .circular => true
  | _ => false

/-- JS truthiness of a modelled value (`0`, `""`, `null`, `undefined`,
`false` are falsy; every object and array is truthy). -/
def truthy : JSVal → Bool
  | .undefined => false
  | .null => false
  | .bool b => b
  | .num n => n != 0
  | .str s => s != ""
  | _ => true

/-- The string payload of a value, `""` for non-strings.  Only applied at
places where the source has already established the value is a string. -/
def jsStr : JSVal → String
  | .str s => s
  | _ => ""

/-! ### Decimal rendering and `parseInt`

The source coerces numbers to strings (template literals) and parses
strings to numbers (`parseInt(x, 10)`).  Both directions are embedded by
fuel-based structural functions so that every concrete instance reduces by
`rfl` and the round trip is provable for all integers. -/

/-- Numeric value of an ASCII digit character. -/
def digitVal (c : Char) : Nat := c.toNat - 48

/-- Decimal digits of `n`, most-significant first, with explicit fuel
(`fuel > n` suffices). -/
def natDecGo : Nat → Nat → List Char
  | 0, _ => []
  | fuel + 1, n =>
    if n < 10 then [Nat.digitChar n]
    else natDecGo fuel (n / 10) ++ [Nat.digitChar (n % 10)]

/-- Standard decimal rendering of a natural number, as JS `String(n)`. -/
def natDecimal (n : Nat) : String := String.mk (natDecGo (n + 1) n)

/-- JS `String(i)` for an integer. -/
def intDecimal (i : Int) : String :=
  if i < 0 then "-" ++ natDecimal i.natAbs else natDecimal i.toNat

/-- Value of a big-endian digit-character list. -/
def digitsVal (cs : List Char) : Nat :=
  cs.foldl (fun a c => a * 10 + digitVal c) 0

/-- Parse a leading run of decimal digits, ignoring any trailing
non-digit characters, as `parseInt` does.  `none` when the list does not
start with a digit. -/
def parseNat (cs : List Char) : Option Nat :=
  if (cs.takeWhile Char.isDigit).isEmpty then none
  else some (digitsVal (cs.takeWhile Char.isDigit))

/-- JS `parseInt(s, 10)` on strings without leading whitespace (the only
shape the source ever passes: URL port strings and `String(number)`
renderings).  Handles an optional sign and truncates at the first
non-digit; `none` stands for `NaN`. -/
def jsParseInt (s : String) : Option Int :=
  match s.data with
  | [] => none
  | c :: cs =>
    if c = '-' then (parseNat cs).map (fun v => -(v : Int))
    else if c = '+' then (parseNat cs).map (fun v => (v : Int))
    else (parseNat (c :: cs)).map (fun v => (v : Int))

/-- `canParseInt` from src/index.js applied to a string:
`!isNaN(parseInt(stringToCheck, 10))`. -/
def canParseIntStr (s : String) : Bool := (jsParseInt s).isSome

/-! ### JS string coercion (template literals) -/

mutual

/-- JS `String(v)` coercion, as performed by the template literals of the
source (error-message interpolation). -/
def jsToString : JSVal → String
  | .undefined => "undefined"
  | .null => "null"
  | .bool b => if b then "true" else "false"
  | .num n => intDecimal n
  | .str s => s
  | .arr xs => jsToStringElems xs
  | .obj _ => "[object Object]"
  | .circular => "[object Object]"

/-- Array-to-string coercion: elements joined by commas, with `null` and
`undefined` elements rendered as the empty string. -/
def jsToStringElems : List JSVal → String
  | [] => ""
  | [x] => if isNilJ x then "" else jsToString x
  | x :: y :: xs =>
    (if isNilJ x then "" else jsToString x) ++ "," ++ jsToStringElems (y :: xs)

end

/-- `canParseInt` applied to an arbitrary value: `parseInt` coerces its
argument to a string first. -/
def canParseIntJ (v : JSVal) : Bool := canParseIntStr (jsToString v)

/-! ### Object helpers: `Object.assign`, `Object.entries`, property access,
and `removeNilValue` / lodash `pickBy` -/

/-- First binding of key `k` in an entry list (JS object entry lists built
by the functions below always have unique keys). -/
def lookupEntries : List (String × JSVal) → String → Option JSVal
  | [], _ => none
  | (k', v) :: rest, k => if k' = k then some v else lookupEntries rest k

/-- Assigning one key on a JS object: update the value in place when the
key exists (keeping insertion order), append the binding otherwise. -/
def setKey : List (String × JSVal) → String → JSVal → List (String × JSVal)
  | [], k, v => [(k, v)]
  | (k', v') :: rest, k, v =>
    if k' = k then (k', v) :: rest else (k', v') :: setKey rest k v

/-- `Object.assign(target, source)` (also lodash/fp `_.assign` up to the
copy of the target): fold the source's entries onto the target. -/
def objectAssign (target source : List (String × JSVal)) :
    List (String × JSVal) :=
  source.foldl (fun acc kv => setKey acc kv.1 kv.2) target

/-- `Object.entries` of a value; non-objects contribute no entries (the
source only reaches this with objects or nil values, which `Object.assign`
and `_.assign` skip). -/
def entriesOf : JSVal → List (String × JSVal)
  | .obj fields => fields
  | _ => []

/-- JS property access `v[k]`: `undefined` when the key is absent or the
value is not a plain object. -/
def getField (v : JSVal) (k : String) : JSVal :=
  match v with
  | .obj fields => (lookupEntries fields k).getD .undefined
  | _ => .undefined

/-- The entry-list core of `removeNilValue` from src/index.js (and of the
`_.pickBy(val => !_.isNil(val))` calls in src/unnamed/part_001): keep the
entries whose value is not nil, preserving order. -/
def removeNilEntries (l : List (String × JSVal)) : List (String × JSVal) :=
  l.filter (fun kv => !isNilJ kv.2)

/-! ### JSON.stringify -/

/-- Minimal JSON string escaping (quote and backslash; the control-character
escapes are not exercised by any value this development evaluates). -/
def jsonEscapeChar (c : Char) : String :=
  if c = '"' then "\\\"" else if c = '\\' then "\\\\" else String.mk [c]

/-- JSON rendering of a string literal. -/
def jsonQuote (s : String) : String :=
  "\"" ++ String.join (s.data.map jsonEscapeChar) ++ "\""

/-- Whether a value is `undefined` (`JSON.stringify` skips object fields
with such values). -/
def isUndef : JSVal → Bool
  | .undefined => true
  | _ => false

/-- Whether an entry list still contains a field that `JSON.stringify`
would render (it skips `undefined`-valued fields). -/
def hasRenderableField (l : List (String × JSVal)) : Bool :=
  l.any (fun kv => !isUndef kv.2)

mutual

/-- The JSON text `JSON.stringify` produces for a cycle-free value.
Top-level `undefined` and `circular` never reach this function in the
embedding (`jsonStringify` guards them); inside arrays `undefined` renders
as `null`, inside objects `undefined`-valued fields are skipped, exactly as
`JSON.stringify` does. -/
def render : JSVal → String
  | .undefined => "null"
  | .null => "null"
  | .bool b => if b then "true" else "false"
  | .num n => intDecimal n
  | .str s => jsonQuote s
  | .arr xs => "[" ++ renderElems xs ++ "]"
  | .obj fs => "\x7b" ++ renderFields fs ++ "\x7d"
  | .circular => ""

/-- Rendering of an object's fields, skipping `undefined` values.  A comma
is emitted after a rendered field exactly when a further renderable field
follows. -/
def renderFields : List (String × JSVal) → String
  | [] => ""
  | (k, v) :: fs =>
    (if isUndef v then "" else
      jsonQuote k ++ ":" ++ render v
        ++ (if hasRenderableField fs then "," else ""))
      ++ renderFields fs

/-- Rendering of an array's elements. -/
def renderElems : List JSVal → String
  | [] => ""
  | [x] => render x
  | x :: y :: xs => render x ++ "," ++ renderElems (y :: xs)

end

mutual

/-- Whether a value contains a reference cycle (the `circular` marker). -/
def hasCirc : JSVal → Bool
  | .circular => true
  | .obj fs => hasCircFields fs
  | .arr xs => hasCircElems xs
  | _ => false

/-- Cycle search through object fields. -/
def hasCircFields : List (String × JSVal) → Bool
  | [] => false
  | (_, v) :: fs => hasCirc v || hasCircFields fs

/-- Cycle search through array elements. -/
def hasCircElems : List JSVal → Bool
  | [] => false
  | x :: xs => hasCirc x || hasCircElems xs

end

/-- The message of the `TypeError` thrown by `JSON.stringify` on a
circular structure. -/
def circularMessage : String := "Converting circular structure to JSON"

/-- `JSON.stringify(v, null, 0)` as used by the source for the request
body: the JSON text, or the thrown error's message. -/
def jsonStringify (v : JSVal) : Except String String :=
  if hasCirc v then .error circularMessage else .ok (render v)

/-! ### String helpers of the two variants -/

/-- JS `String.prototype.toUpperCase` (ASCII, which covers every method
string the validator admits). -/
def jsToUpper (s : String) : String := String.mk (s.data.map Char.toUpper)

/-- JS `String.prototype.toLowerCase` (ASCII). -/
def jsToLower (s : String) : String := String.mk (s.data.map Char.toLower)

/-- The word-capitalisation the body of `capitalize` (src/index.js)
computes and then discards: lower-case the string, then upper-case every
non-space character preceded by the start of the string or whitespace. -/
def capitalizeWordsGo : Bool → List Char → List Char
  | _, [] => []
  | atBoundary, c :: cs =>
    (if atBoundary && !c.isWhitespace then c.toUpper else c)
      :: capitalizeWordsGo c.isWhitespace cs

/-- The string value the regex replacement inside `capitalize` produces. -/
def capitalizeWords (s : String) : String :=
  String.mk (capitalizeWordsGo true (jsToLower s).data)

/-- `capitalize` from src/index.js.  The function body computes
`string.toLowerCase().replace(/(?:^|\s)\S/g, s => s.toUpperCase())` but has
no `return` statement, so every call evaluates to `undefined`; the computed
replacement is discarded. -/
def capitalize (s : String) : JSVal :=
  (fun _ => JSVal.undefined) (capitalizeWords s)

/-- lodash `_.capitalize`, used by src/unnamed/part_001: upper-case the
first character, lower-case the rest. -/
def lodashCapitalize (s : String) : String :=
  match s.data with
  | [] => ""
  | c :: cs => String.mk (c.toUpper :: cs.map Char.toLower)

/-- `url.protocol.replace(':', '')` from src/index.js: remove the first
occurrence of a colon. -/
def replaceFirstColonGo : List Char → List Char
  | [] => []
  | c :: cs => if c = ':' then cs else c :: replaceFirstColonGo cs

/-- String form of `replaceFirstColonGo`. -/
def replaceFirstColon (s : String) : String :=
  String.mk (replaceFirstColonGo s.data)

/-- lodash `_.trimChars(':')` from src/unnamed/part_001: strip leading and
trailing colons. -/
def trimColon (s : String) : String :=
  String.mk (((s.data.dropWhile (fun c => c = ':')).reverse.dropWhile
    (fun c => c = ':')).reverse)

/-! ### The validators -/

/-- The four verbs both validators accept. -/
def allowedMethods : List String := ["GET", "POST", "PUT", "DELETE"]

/-- `validateHttpParams` from src/index.js, as the error message it throws
(`none` when validation falls through).  The checks and messages are
translated clause for clause, including the source's typos ("mus be") and
the `method` clause's interpolation of `typeof method` — a bare, undeclared
identifier, whose `typeof` is always the string "undefined" — instead of
`typeof params.method`. -/
def validateHttpParams (params : JSVal) : Option String :=
  if !isObjectJ params then
    some ("Params mus be an object, " ++ typeofJS params ++ " given")
  else if typeofJS (getField params "url") != "string"
      || jsStr (getField params "url") == "" then
    some ("url must be a string, " ++ typeofJS (getField params "url") ++ " given")
  else if !isNilJ (getField params "headers")
      && !isObjectJ (getField params "headers") then
    some ("headers mus be an object, " ++ typeofJS (getField params "headers") ++ " given")
  else if !isNilJ (getField params "method")
      && (typeofJS (getField params "method") != "string"
          || !(allowedMethods.contains (jsToUpper (jsStr (getField params "method"))))) then
    some ("method must be a string, " ++ typeofJS JSVal.undefined ++ " given")
  else if !isNilJ (getField params "data")
      && !isObjectJ (getField params "data") then
    some ("data mus be an object, " ++ typeofJS (getField params "data") ++ " given")
  else if !isNilJ (getField params "auth")
      && typeofJS (getField params "auth") != "string" then
    some ("auth must be a string, " ++ typeofJS (getField params "auth") ++ " given")
  else if !isNilJ (getField params "agent")
      && !isObjectJ (getField params "agent") then
    some ("agent mus be an object, " ++ typeofJS (getField params "agent") ++ " given")
  else if !isNilJ (getField params "createConnection")
      && typeofJS (getField params "createConnection") != "string" then
    some ("createConnection must be a string, "
      ++ typeofJS (getField params "createConnection") ++ " given")
  else if !isNilJ (getField params "timeout")
      && typeofJS (getField params "timeout") != "number" then
    some ("timeout must be a number, " ++ typeofJS (getField params "timeout") ++ " given")
  else if !isNilJ (getField params "ca")
      && typeofJS (getField params "ca") != "string" then
    some ("ca must be a string, " ++ typeofJS (getField params "ca") ++ " given")
  else if !isNilJ (getField params "cert")
      && typeofJS (getField params "cert") != "string" then
    some ("cert must be a string, " ++ typeofJS (getField params "cert") ++ " given")
  else if !isNilJ (getField params "key")
      && typeofJS (getField params "key") != "string" then
    some ("key must be a string, " ++ typeofJS (getField params "key") ++ " given")
  else if !isNilJ (getField params "rejectUnauthorized")
      && typeofJS (getField params "rejectUnauthorized") != "boolean" then
    some ("rejectUnauthorized must be a boolean, "
      ++ typeofJS (getField params "rejectUnauthorized") ++ " given")
  else if !isNilJ (getField params "returnStream")
      && typeofJS (getField params "returnStream") != "boolean" then
    some ("returnStream must be a boolean, "
      ++ typeofJS (getField params "returnStream") ++ " given")
  else none

/-- Validation of `httpRequestParamsSchema` from src/unnamed/part_001.
The schema text is in the source; the checking behaviour is that of the
external Joi library on that schema (required non-empty string `url`,
optional object/string/number/boolean fields, `method` upper-cased and
checked against the four verbs). -/
def joiValidate (params : JSVal) : Option String :=
  if !isObjectJ params then some "ValidationError: value must be an object"
  else if typeofJS (getField params "url") != "string"
      || jsStr (getField params "url") == "" then
    some "ValidationError: url"
  else if !isNilJ (getField params "headers")
      && !isObjectJ (getField params "headers") then
    some "ValidationError: headers"
  else if !isNilJ (getField params "method")
      && (typeofJS (getField params "method") != "string"
          || !(allowedMethods.contains (jsToUpper (jsStr (getField params "method"))))) then
    some "ValidationError: method"
  else if !isNilJ (getField params "data")
      && !isObjectJ (getField params "data") then
    some "ValidationError: data"
  else if !isNilJ (getField params "auth")
      && typeofJS (getField params "auth") != "string" then
    some "ValidationError: auth"
  else if !isNilJ (getField params "agent")
      && !isObjectJ (getField params "agent") then
    some "ValidationError: agent"
  else if !isNilJ (getField params "createConnection")
      && typeofJS (getField params "createConnection") != "string" then
    some "ValidationError: createConnection"
  else if !isNilJ (getField params "timeout")
      && typeofJS (getField params "timeout") != "number" then
    some "ValidationError: timeout"
  else if !isNilJ (getField params "ca")
      && typeofJS (getField params "ca") != "string" then
    some "ValidationError: ca"
  else if !isNilJ (getField params "cert")
      && typeofJS (getField params "cert") != "string" then
    some "ValidationError: cert"
  else if !isNilJ (getField params "key")
      && typeofJS (getField params "key") != "string" then
    some "ValidationError: key"
  else if !isNilJ (getField params "rejectUnauthorized")
      && typeofJS (getField params "rejectUnauthorized") != "boolean" then
    some "ValidationError: rejectUnauthorized"
  else if !isNilJ (getField params "returnStream")
      && typeofJS (getField params "returnStream") != "boolean" then
    some "ValidationError: returnStream"
  else none

/-! ### URL model and option building -/

/-- The result of `new URL(requestParams.url)` for the fields the source
reads.  The parser itself is external (`require('url')`); the executor
takes it as a parameter. -/
structure ParsedURL : Type where
  protocol : String
  hostname : String
  port : String
  pathname : String
  search : String
  hash : String

/-- The `defaultPort` column of the `protocols` table (`{ http: 80,
https: 443 }`); `0` is never reached because the executor has already
checked the protocol. -/
def defaultPortOf (protocol : String) : Int :=
  if protocol = "http" then 80 else if protocol = "https" then 443 else 0

/-- The resolved `port` option: the URL's port when `canParseInt` accepts
it, else the scheme's default. -/
def resolvePort (u : ParsedURL) (protocol : String) : Int :=
  if canParseIntStr u.port then (jsParseInt u.port).getD 0
  else defaultPortOf protocol

/-- The resolved `method` option:
`requestParams.method ? requestParams.method.toUpperCase() : 'GET'`. -/
def methodResolved (p : JSVal) : String :=
  let m := getField p "method"
  if truthy m then jsToUpper (jsStr m) else "GET"

/-- The default headers object both variants overlay. -/
def defaultHeaders : List (String × JSVal) :=
  [("Accept", .str "application/json"),
   ("Content-Type", .str "application/json")]

/-- The outgoing headers of src/index.js:
`removeNilValue(Object.assign({}, requestParams.headers, defaults))` —
the two JSON defaults are assigned last, over the caller's entries. -/
def buildHeaders1 (headers : JSVal) : List (String × JSVal) :=
  removeNilEntries (objectAssign (objectAssign [] (entriesOf headers)) defaultHeaders)

/-- The outgoing headers of src/unnamed/part_001:
`_.flow(_.assign(defaults), _.pickBy(val => !_.isNil(val)))(requestParams.headers)`
— the caller's entries are assigned last, over a copy of the defaults. -/
def buildHeaders2 (headers : JSVal) : List (String × JSVal) :=
  removeNilEntries (objectAssign defaultHeaders (entriesOf headers))

/-- The `returnStream` option value: `requestParams.returnStream || false`. -/
def returnStreamVal (v : JSVal) : JSVal :=
  if truthy v then v else .bool false

/-- The resolved options object of src/index.js (`removeNilValue` applied
to the literal), as its ordered entry list. -/
def buildOptions1 (p : JSVal) (u : ParsedURL) (protocol : String) :
    List (String × JSVal) :=
  removeNilEntries
    [("hostname", .str u.hostname),
     ("port", .num (resolvePort u protocol)),
     ("path", .str (u.pathname ++ u.search ++ u.hash)),
     ("method", .str (methodResolved p)),
     ("headers", .obj (buildHeaders1 (getField p "headers"))),
     ("agent", getField p "agent"),
     ("auth", getField p "auth"),
     ("createConnection", getField p "createConnection"),
     ("ca", if protocol = "https" then getField p "ca" else .null),
     ("cert", if protocol = "https" then getField p "cert" else .null),
     ("key", if protocol = "https" then getField p "key" else .null),
     ("rejectUnauthorized",
       if protocol = "https" then getField p "rejectUnauthorized" else .null),
     ("returnStream", returnStreamVal (getField p "returnStream"))]

/-- The resolved options object of src/unnamed/part_001 (identical except
for the header merge order). -/
def buildOptions2 (p : JSVal) (u : ParsedURL) (protocol : String) :
    List (String × JSVal) :=
  removeNilEntries
    [("hostname", .str u.hostname),
     ("port", .num (resolvePort u protocol)),
     ("path", .str (u.pathname ++ u.search ++ u.hash)),
     ("method", .str (methodResolved p)),
     ("headers", .obj (buildHeaders2 (getField p "headers"))),
     ("agent", getField p "agent"),
     ("auth", getField p "auth"),
     ("createConnection", getField p "createConnection"),
     ("ca", if protocol = "https" then getField p "ca" else .null),
     ("cert", if protocol = "https" then getField p "cert" else .null),
     ("key", if protocol = "https" then getField p "key" else .null),
     ("rejectUnauthorized",
       if protocol = "https" then getField p "rejectUnauthorized" else .null),
     ("returnStream", returnStreamVal (getField p "returnStream"))]

/-- The armed timeout:
`canParseInt(requestParams.timeout) ? requestParams.timeout : 3000`.
Note the original value, not the parsed integer, is kept. -/
def resolveTimeout (p : JSVal) : JSVal :=
  let t := getField p "timeout"
  if canParseIntJ t then t else .num 3000

/-- The `method` entry of a built options object, read back the way the
body-writing code reads `options.method`. -/
def optionsMethod (options : List (String × JSVal)) : String :=
  match lookupEntries options "method" with
  | some (.str m) => m
  | _ => ""

/-- The request body computation:
`requestParams.data ? attempt(() => JSON.stringify(requestParams.data, null, 0)) : null`. -/
def requestBodyOf (p : JSVal) : Option (Except String String) :=
  if truthy (getField p "data") then some (jsonStringify (getField p "data"))
  else none

/-! ### The request executor -/

/-- What the transport reports about the response body. -/
inductive BodyEvent : Type where
  | ended : List String → BodyEvent
  | errored : String → BodyEvent

/-- The single event the transport delivers for the in-flight request:
a request-level `'error'` event, the timeout firing first, or response
headers (with the subsequent body events). -/
inductive TransportEvent : Type where
  | errorEvent : String → TransportEvent
  | timeoutFired : TransportEvent
  | response : Int → BodyEvent → TransportEvent

/-- The side effects the executor performs on the transport, in order. -/
inductive Effect : Type where
  | requestCreated : List (String × JSVal) → Effect
  | bodyWritten : String → Effect
  | requestEnded : Effect
  | aborted : Effect

/-- How the promise settles. -/
inductive Outcome : Type where
  | resolved : JSVal → Outcome
  | resolvedStream : Outcome
  | rejected : String → Outcome

/-- A transport behaviour: the event delivered, as a function of the
options and written body handed over. -/
def Transport : Type := List (String × JSVal) → Option String → TransportEvent

/-- The base effect trace of a dispatched request. -/
def baseEffects (options : List (String × JSVal)) (body : Option String) :
    List Effect :=
  Effect.requestCreated options
    :: ((match body with | some s => [Effect.bodyWritten s] | none => [])
        ++ [Effect.requestEnded])

/-- The event-handling tail of src/index.js's executor: the response
callback, the `'error'` handler and the timeout handler, each settling the
promise.  `prefix1` below is the transport-error message prefix
`${capitalize(protocol)}` — the string "undefined", since `capitalize`
returns `undefined`. -/
def runRequest (jsonParse : String → Except String JSVal) (tr : Transport)
    (p : JSVal) (options : List (String × JSVal)) (protocol : String)
    (body : Option String) : Outcome × List Effect :=
  let effs := baseEffects options body
  match tr options body with
  | .errorEvent msg =>
    (.rejected (jsToString (capitalize protocol) ++ " error: " ++ msg), effs)
  | .timeoutFired =>
    (.rejected (jsToString (capitalize protocol)
        ++ " error: request timed out (timeout: "
        ++ jsToString (resolveTimeout p) ++ "ms)"),
     effs ++ [.aborted])
  | .response code bodyEv =>
    if code < 200 ∨ code ≥ 300 then
      (.rejected ("Query returned status code of " ++ intDecimal code), effs)
    else if truthy (getField p "returnStream") then (.resolvedStream, effs)
    else
      match bodyEv with
      | .ended chunks =>
        match jsonParse (String.join chunks) with
        | .ok v => (.resolved v, effs)
        | .error msg => (.rejected ("Error parsing chunks: " ++ msg), effs)
      | .errored msg =>
        (.rejected (jsToString (capitalize protocol) ++ " error: " ++ msg), effs)

/-- The exported function of src/index.js: validate, parse the URL, check
the protocol, build options, create the request, serialize the body —
rejecting but still ending the request on serialization failure — write
the body for non-GET methods, end the request, and settle according to the
transport's event.  `parseURL` and `jsonParse` are the external URL parser
and JSON decoder. -/
def riquest (parseURL : String → Except String ParsedURL)
    (jsonParse : String → Except String JSVal) (tr : Transport)
    (p : JSVal) : Outcome × List Effect :=
  match validateHttpParams p with
  | some msg => (.rejected ("Error on request params: " ++ msg), [])
  | none =>
    match parseURL (jsStr (getField p "url")) with
    | .error msg => (.rejected ("Error while parsing the url: " ++ msg), [])
    | .ok url =>
      let protocol := replaceFirstColon url.protocol
      if protocol = "http" ∨ protocol = "https" then
        let options := buildOptions1 p url protocol
        match requestBodyOf p with
        | some (.error msg) =>
          (.rejected ("Could not set request body: " ++ msg),
           [.requestCreated options, .requestEnded])
        | some (.ok s) =>
          runRequest jsonParse tr p options protocol
            (if optionsMethod options != "GET" && s != "" then some s else none)
        | none => runRequest jsonParse tr p options protocol none
      else (.rejected ("Bad protocol used: " ++ protocol), [])

/-- The event-handling tail of src/unnamed/part_001: identical to
`runRequest` except that the message prefix is the working
`_.capitalize(protocol)`. -/
def runRequest2 (jsonParse : String → Except String JSVal) (tr : Transport)
    (p : JSVal) (options : List (String × JSVal)) (protocol : String)
    (body : Option String) : Outcome × List Effect :=
  let effs := baseEffects options body
  match tr options body with
  | .errorEvent msg =>
    (.rejected (lodashCapitalize protocol ++ " error: " ++ msg), effs)
  | .timeoutFired =>
    (.rejected (lodashCapitalize protocol
        ++ " error: request timed out (timeout: "
        ++ jsToString (resolveTimeout p) ++ "ms)"),
     effs ++ [.aborted])
  | .response code bodyEv =>
    if code < 200 ∨ code ≥ 300 then
      (.rejected ("Query returned status code of " ++ intDecimal code), effs)
    else if truthy (getField p "returnStream") then (.resolvedStream, effs)
    else
      match bodyEv with
      | .ended chunks =>
        match jsonParse (String.join chunks) with
        | .ok v => (.resolved v, effs)
        | .error msg => (.rejected ("Error parsing chunks: " ++ msg), effs)
      | .errored msg =>
        (.rejected (lodashCapitalize protocol ++ " error: " ++ msg), effs)

/-- The exported function of src/unnamed/part_001: the Joi-validated
variant, with `_.trimChars(':')` for the protocol, the caller-headers-last
merge (`buildOptions2`) and the working `_.capitalize` prefix. -/
def riquest2 (parseURL : String → Except String ParsedURL)
    (jsonParse : String → Except String JSVal) (tr : Transport)
    (p : JSVal) : Outcome × List Effect :=
  match joiValidate p with
  | some msg => (.rejected ("Error on request params: " ++ msg), [])
  | none =>
    match parseURL (jsStr (getField p "url")) with
    | .error msg => (.rejected ("Error while parsing the url: " ++ msg), [])
    | .ok url =>
      let protocol := trimColon url.protocol
      if protocol = "http" ∨ protocol = "https" then
        let options := buildOptions2 p url protocol
        match requestBodyOf p with
        | some (.error msg) =>
          (.rejected ("Could not set request body: " ++ msg),
           [.requestCreated options, .requestEnded])
        | some (.ok s) =>
          runRequest2 jsonParse tr p options protocol
            (if optionsMethod options != "GET" && s != "" then some s else none)
        | none => runRequest2 jsonParse tr p options protocol none
      else (.rejected ("Bad protocol used: " ++ protocol), [])

/-- Whether the body-serialization step succeeds (or is skipped): the
executor reaches the transport exactly when this holds. -/
def serializationOk (p : JSVal) : Bool :=
  match requestBodyOf p with
  | some (.error _) => false
  | _ => true

/-! ### Concrete fixtures for the external collaborators

Oracles standing in for the external URL parser, JSON decoder and
transport, used by the concrete instances below. -/

/-- URL-parser oracle answering `https://host/`. -/
def parseHttpsHost : String → Except String ParsedURL :=
  fun _ => .ok (ParsedURL.mk "https:" "host" "" "/" "" "")

/-- URL-parser oracle answering `http://a/`. -/
def parseHttpA : String → Except String ParsedURL :=
  fun _ => .ok (ParsedURL.mk "http:" "a" "" "/" "" "")

/-- JSON-decoder oracle that accepts exactly the body text "1". -/
def jsonParseOne : String → Except String JSVal :=
  fun s => if s = "1" then .ok (.num 1) else .error "Unexpected token"

/-- A transport whose response depends on whether the outgoing headers
carry an `Accept` key: HTTP 500 when they do, HTTP 200 with body "1" when
they do not.  Distinguishes the two variants' header merges. -/
def acceptSensitiveTransport : Transport := fun opts _ =>
  match lookupEntries opts "headers" with
  | some (.obj hs) =>
    match lookupEntries hs "Accept" with
    | some _ => .response 500 (.ended [])
    | none => .response 200 (.ended ["1"])
  | _ => .response 500 (.ended [])

/-- Caller params: `https://host/` with headers `{ Accept: null }`. -/
def paramsHeadersNullAccept : JSVal :=
  .obj [("url", .str "https://host/"), ("headers", .obj [("Accept", .null)])]

/-- Caller params: a bare `https://host/` request. -/
def paramsPlainHttps : JSVal := .obj [("url", .str "https://host/")]

/-- Caller params: a GET request whose `data` holds a circular object. -/
def paramsCircularGet : JSVal :=
  .obj [("url", .str "http://a/"), ("method", .str "get"),
        ("data", .circular)]

/-- Caller params: `method: 'post'` with `data: {a: 1}`. -/
def paramsPostData : JSVal :=
  .obj [("url", .str "http://a/"), ("method", .str "post"),
        ("data", .obj [("a", .num 1)])]

/-- Caller params: a request with `timeout: 250`. -/
def paramsTimeout250 : JSVal :=
  .obj [("url", .str "http://a/"), ("timeout", .num 250)]

/-- Caller params: `returnStream: true`. -/
def paramsReturnStream : JSVal :=
  .obj [("url", .str "http://a/"), ("returnStream", .bool true)]

/-! ## Lemmas: decimal rendering round-trips through `parseInt`

JS coerces a number to its decimal string and `parseInt` reads it back;
these lemmas show the embedding's `intDecimal` / `jsParseInt` pair agrees,
which is what makes a caller-supplied integer `timeout` survive the
`canParseInt` guard. -/

theorem digitChar_isDigit (d : Nat) (h : d < 10) :
    (Nat.digitChar d).isDigit = true := by
  interval_cases d <;> decide

theorem digitVal_digitChar (d : Nat) (h : d < 10) :
    digitVal (Nat.digitChar d) = d := by
  interval_cases d <;> decide

theorem natDecGo_digits (fuel : Nat) :
    ∀ n, n < fuel → ∀ c ∈ natDecGo fuel n, c.isDigit = true := by
  induction fuel with
  | zero => intro n h; omega
  | succ f ih =>
    intro n hn c hc
    by_cases h10 : n < 10
    · simp only [natDecGo, if_pos h10, List.mem_singleton] at hc
      subst hc
      exact digitChar_isDigit n h10
    · simp only [natDecGo, if_neg h10, List.mem_append, List.mem_singleton] at hc
      rcases hc with hc | hc
      · have hdiv : n / 10 < n := Nat.div_lt_self (by omega) (by omega)
        exact ih (n / 10) (by omega) c hc
      · subst hc
        exact digitChar_isDigit (n % 10) (Nat.mod_lt n (by omega))

theorem natDecGo_ne_nil (fuel n : Nat) (h : n < fuel) :
    natDecGo fuel n ≠ [] := by
  cases fuel with
  | zero => omega
  | succ f =>
    by_cases h10 : n < 10
    · simp [natDecGo, if_pos h10]
    · simp [natDecGo, if_neg h10]

theorem foldl_digits_natDecGo (fuel : Nat) :
    ∀ n, n < fuel → ∀ a : Nat,
      (natDecGo fuel n).foldl (fun a c => a * 10 + digitVal c) a
        = a * 10 ^ (natDecGo fuel n).length + n := by
  induction fuel with
  | zero => intro n h; omega
  | succ f ih =>
    intro n hn a
    by_cases h10 : n < 10
    · simp only [natDecGo, if_pos h10, List.foldl_cons, List.foldl_nil,
        List.length_singleton, pow_one]
      rw [digitVal_digitChar n h10]
    · have hdiv : n / 10 < n := Nat.div_lt_self (by omega) (by omega)
      have hf : n / 10 < f := by omega
      simp only [natDecGo, if_neg h10, List.foldl_append, List.foldl_cons,
        List.foldl_nil, List.length_append, List.length_singleton]
      rw [ih (n / 10) hf a, digitVal_digitChar (n % 10) (Nat.mod_lt n (by omega))]
      have hmod := Nat.div_add_mod n 10
      rw [pow_succ]
      ring_nf
      omega

theorem takeWhile_of_all {p : Char → Bool} :
    ∀ l : List Char, (∀ c ∈ l, p c = true) → l.takeWhile p = l := by
  intro l
  induction l with
  | nil => intro _; rfl
  | cons c cs ih =>
    intro h
    simp [List.takeWhile_cons, h c (List.mem_cons_self c cs),
      ih (fun x hx => h x (List.mem_cons_of_mem c hx))]

theorem parseNat_natDecGo (fuel n : Nat) (h : n < fuel) :
    parseNat (natDecGo fuel n) = some n := by
  have h1 : (natDecGo fuel n).takeWhile Char.isDigit = natDecGo fuel n :=
    takeWhile_of_all _ (natDecGo_digits fuel n h)
  have h2 : (natDecGo fuel n).isEmpty = false := by
    simpa using natDecGo_ne_nil fuel n h
  unfold parseNat
  rw [h1, h2]
  simp only [Bool.false_eq_true, if_false]
  unfold digitsVal
  rw [foldl_digits_natDecGo fuel n h 0]
  simp

theorem jsParseInt_natDecimal (n : Nat) :
    jsParseInt (natDecimal n) = some (n : Int) := by
  have hne := natDecGo_ne_nil (n + 1) n (Nat.lt_succ_self n)
  obtain ⟨c, cs, hcons⟩ := List.exists_cons_of_ne_nil hne
  have hdig : c.isDigit = true := by
    refine natDecGo_digits (n + 1) n (Nat.lt_succ_self n) c ?_
    rw [hcons]; exact List.mem_cons_self c cs
  have hdash : ¬(c = '-') := by
    intro h; rw [h] at hdig; exact absurd hdig (by decide)
  have hplus : ¬(c = '+') := by
    intro h; rw [h] at hdig; exact absurd hdig (by decide)
  have hmk : jsParseInt (String.mk (c :: cs))
      = (if c = '-' then (parseNat cs).map (fun v => -(v : Int))
         else if c = '+' then (parseNat cs).map (fun v => (v : Int))
         else (parseNat (c :: cs)).map (fun v => (v : Int))) := rfl
  show jsParseInt (String.mk (natDecGo (n + 1) n)) = some (n : Int)
  rw [hcons, hmk, if_neg hdash, if_neg hplus, ← hcons,
    parseNat_natDecGo (n + 1) n (Nat.lt_succ_self n)]
  rfl

theorem jsParseInt_intDecimal (i : Int) :
    jsParseInt (intDecimal i) = some i := by
  unfold intDecimal
  by_cases hi : i < 0
  · rw [if_pos hi]
    have hdata : ("-" ++ natDecimal i.natAbs).data
        = '-' :: natDecGo (i.natAbs + 1) i.natAbs := rfl
    unfold jsParseInt
    rw [hdata]
    simp only [if_pos rfl]
    rw [parseNat_natDecGo (i.natAbs + 1) i.natAbs (Nat.lt_succ_self _)]
    show some (-(i.natAbs : Int)) = some i
    congr 1
    omega
  · rw [if_neg hi]
    rw [jsParseInt_natDecimal i.toNat]
    congr 1
    omega

theorem canParseIntJ_num (i : Int) : canParseIntJ (.num i) = true := by
  unfold canParseIntJ canParseIntStr
  rw [show jsToString (.num i) = intDecimal i from rfl, jsParseInt_intDecimal]
  rfl

/-! ## Lemmas: `Object.assign` entry lists -/

theorem lookup_setKey (l : List (String × JSVal)) (k k' : String) (v : JSVal) :
    lookupEntries (setKey l k v) k'
      = if k = k' then some v else lookupEntries l k' := by
  induction l with
  | nil => simp [setKey, lookupEntries]
  | cons kv rest ih =>
    obtain ⟨a, b⟩ := kv
    by_cases hak : a = k
    · subst hak
      simp only [setKey, if_pos rfl, lookupEntries]
      by_cases hk' : a = k'
      · subst hk'; simp
      · simp [hk']
    · simp only [setKey, if_neg hak, lookupEntries]
      by_cases hk' : a = k'
      · subst hk'
        have : ¬(k = a) := fun h => hak h.symm
        simp [this]
      · simp [hk', ih]

theorem setKey_absent (l : List (String × JSVal)) (k : String) (v : JSVal)
    (h : lookupEntries l k = none) : setKey l k v = l ++ [(k, v)] := by
  induction l with
  | nil => rfl
  | cons kv rest ih =>
    obtain ⟨a, b⟩ := kv
    simp only [lookupEntries] at h
    by_cases hak : a = k
    · simp [hak] at h
    · simp only [if_neg hak] at h
      simp [setKey, hak, ih h]

theorem lookup_objectAssign_absent (src : List (String × JSVal)) :
    ∀ t k, lookupEntries src k = none →
      lookupEntries (objectAssign t src) k = lookupEntries t k := by
  induction src with
  | nil => intro t k _; rfl
  | cons kv rest ih =>
    intro t k h
    obtain ⟨a, b⟩ := kv
    simp only [lookupEntries] at h
    by_cases hak : a = k
    · simp [hak] at h
    · simp only [if_neg hak] at h
      show lookupEntries (objectAssign (setKey t a b) rest) k = _
      rw [ih (setKey t a b) k h, lookup_setKey, if_neg hak]

theorem setKey_append_left (d l : List (String × JSVal)) (k : String)
    (v : JSVal) (h : lookupEntries d k = none) :
    setKey (d ++ l) k v = d ++ setKey l k v := by
  induction d with
  | nil => rfl
  | cons kv rest ih =>
    obtain ⟨a, b⟩ := kv
    simp only [lookupEntries] at h
    by_cases hak : a = k
    · simp [hak] at h
    · simp only [if_neg hak] at h
      simp [setKey, hak, ih h]

theorem lookup_append_some (l1 l2 : List (String × JSVal)) (k : String)
    (v : JSVal) (h : lookupEntries l1 k = some v) :
    lookupEntries (l1 ++ l2) k = some v := by
  induction l1 with
  | nil => simp [lookupEntries] at h
  | cons kv rest ih =>
    obtain ⟨a, b⟩ := kv
    simp only [lookupEntries] at h ⊢
    by_cases hak : a = k
    · simpa [hak] using h
    · simp only [if_neg hak] at h ⊢
      exact ih h

theorem lookup_append_none (l1 l2 : List (String × JSVal)) (k : String)
    (h : lookupEntries l1 k = none) :
    lookupEntries (l1 ++ l2) k = lookupEntries l2 k := by
  induction l1 with
  | nil => rfl
  | cons kv rest ih =>
    obtain ⟨a, b⟩ := kv
    simp only [lookupEntries] at h ⊢
    by_cases hak : a = k
    · simp [hak] at h
    · simp only [if_neg hak] at h ⊢
      exact ih h

theorem lookup_removeNil_none (l : List (String × JSVal)) (k : String)
    (h : lookupEntries l k = none) :
    lookupEntries (removeNilEntries l) k = none := by
  induction l with
  | nil => rfl
  | cons kv rest ih =>
    obtain ⟨a, b⟩ := kv
    simp only [lookupEntries] at h
    by_cases hak : a = k
    · simp [hak] at h
    · simp only [if_neg hak] at h
      unfold removeNilEntries at ih ⊢
      rw [List.filter_cons]
      by_cases hb : isNilJ b
      · simp [hb, ih h]
      · simp only [hb]
        simp only [Bool.not_false, if_pos]
        simp [lookupEntries, hak, ih h]

theorem objectAssign_defaults_left (hs : List (String × JSVal)) :
    ∀ t, lookupEntries hs "Accept" = none →
      lookupEntries hs "Content-Type" = none →
      objectAssign (defaultHeaders ++ t) hs
        = defaultHeaders ++ objectAssign t hs := by
  induction hs with
  | nil => intro t _ _; rfl
  | cons kv rest ih =>
    intro t hA hCT
    obtain ⟨a, b⟩ := kv
    simp only [lookupEntries] at hA hCT
    by_cases ha : a = "Accept"
    · simp [ha] at hA
    · by_cases hct : a = "Content-Type"
      · simp [hct] at hCT
      · simp only [if_neg ha] at hA
        simp only [if_neg hct] at hCT
        have ha' : ¬("Accept" = a) := fun h => ha h.symm
        have hct' : ¬("Content-Type" = a) := fun h => hct h.symm
        have hd : lookupEntries defaultHeaders a = none := by
          simp [defaultHeaders, lookupEntries, ha', hct']
        show objectAssign (setKey (defaultHeaders ++ t) a b) rest = _
        rw [setKey_append_left defaultHeaders t a b hd]
        exact ih (setKey t a b) hA hCT

/-- Claim C4, amended: the two implementation variants do not implement
the same observable contract (see the counterexample).  This theorem
proves the agreeing side of the amendment: the variants' outgoing headers
coincide (as key-value maps) whenever the caller-supplied headers bind
neither of the two default keys `Accept` and `Content-Type`, so the
divergence is confined to inputs that do bind a default key. -/
theorem claim_C4_headers_agree (hs : List (String × JSVal))
    (hA : lookupEntries hs "Accept" = none)
    (hCT : lookupEntries hs "Content-Type" = none) (k : String) :
    lookupEntries (buildHeaders1 (.obj hs)) k
      = lookupEntries (buildHeaders2 (.obj hs)) k := by
  have hNA : lookupEntries (objectAssign [] hs) "Accept" = none := by
    rw [lookup_objectAssign_absent hs [] "Accept" hA]; rfl
  have hNCT : lookupEntries (objectAssign [] hs) "Content-Type" = none := by
    rw [lookup_objectAssign_absent hs [] "Content-Type" hCT]; rfl
  have h1 : objectAssign (objectAssign [] hs) defaultHeaders
      = objectAssign [] hs ++ defaultHeaders := by
    show setKey (setKey (objectAssign [] hs) "Accept" (.str "application/json"))
        "Content-Type" (.str "application/json") = _
    rw [setKey_absent _ "Accept" _ hNA]
    rw [setKey_absent _ "Content-Type" _
      (by rw [lookup_append_none _ _ _ hNCT]; rfl)]
    rw [List.append_assoc]
    rfl
  have h2 : objectAssign defaultHeaders hs
      = defaultHeaders ++ objectAssign [] hs := by
    have h := objectAssign_defaults_left hs [] hA hCT
    simpa using h
  have hb1 : buildHeaders1 (.obj hs)
      = removeNilEntries (objectAssign [] hs) ++ defaultHeaders := by
    show removeNilEntries (objectAssign (objectAssign [] hs) defaultHeaders) = _
    rw [h1]
    unfold removeNilEntries
    rw [List.filter_append]
    rfl
  have hb2 : buildHeaders2 (.obj hs)
      = defaultHeaders ++ removeNilEntries (objectAssign [] hs) := by
    show removeNilEntries (objectAssign defaultHeaders hs) = _
    rw [h2]
    unfold removeNilEntries
    rw [List.filter_append]
    rfl
  rw [hb1, hb2]
  by_cases hk1 : k = "Accept"
  · subst hk1
    rw [lookup_append_none _ _ _ (lookup_removeNil_none _ _ hNA)]
    rw [lookup_append_some defaultHeaders _ "Accept" (.str "application/json") rfl]
    rfl
  · by_cases hk2 : k = "Content-Type"
    · subst hk2
      rw [lookup_append_none _ _ _ (lookup_removeNil_none _ _ hNCT)]
      rw [lookup_append_some defaultHeaders _ "Content-Type" (.str "application/json") rfl]
      rfl
    · have hk1' : ¬("Accept" = k) := fun h => hk1 h.symm
      have hk2' : ¬("Content-Type" = k) := fun h => hk2 h.symm
      have hd : lookupEntries defaultHeaders k = none := by
        simp [defaultHeaders, lookupEntries, hk1', hk2']
      rw [lookup_append_none _ _ _ hd]
      cases hv : lookupEntries (removeNilEntries (objectAssign [] hs)) k with
      | none => rw [lookup_append_none _ _ _ hv, hd]
      | some v => rw [lookup_append_some _ _ _ _ hv]

/-! ## Lemmas: resolved options and the executor -/

theorem optionsMethod_buildOptions1 (p : JSVal) (u : ParsedURL)
    (protocol : String) :
    optionsMethod (buildOptions1 p u protocol) = methodResolved p := rfl

theorem lookup_port_buildOptions1 (p : JSVal) (u : ParsedURL)
    (protocol : String) :
    lookupEntries (buildOptions1 p u protocol) "port"
      = some (.num (resolvePort u protocol)) := rfl

theorem lookup_path_buildOptions1 (p : JSVal) (u : ParsedURL)
    (protocol : String) :
    lookupEntries (buildOptions1 p u protocol) "path"
      = some (.str (u.pathname ++ u.search ++ u.hash)) := rfl

theorem resolveTimeout_given (p : JSVal) (n : Int)
    (h : getField p "timeout" = .num n) : resolveTimeout p = .num n := by
  unfold resolveTimeout
  rw [h, if_pos (canParseIntJ_num n)]

theorem resolveTimeout_absent (p : JSVal)
    (h : isNilJ (getField p "timeout") = true) :
    resolveTimeout p = .num 3000 := by
  unfold resolveTimeout
  cases hv : getField p "timeout" <;> rw [hv] at h <;>
    first
      | rfl
      | simp [isNilJ] at h

theorem runRequest_effects (jsonParse : String → Except String JSVal)
    (tr : Transport) (p : JSVal) (options : List (String × JSVal))
    (protocol : String) (body : Option String) :
    (runRequest jsonParse tr p options protocol body).2 = baseEffects options body
    ∨ (runRequest jsonParse tr p options protocol body).2
        = baseEffects options body ++ [Effect.aborted] := by
  unfold runRequest
  rcases htr : tr options body with msg | - | ⟨code, bodyEv⟩
  · left; rfl
  · right; rfl
  · by_cases hcode : code < 200 ∨ code ≥ 300
    · left; simp [hcode]
    · by_cases hrs : truthy (getField p "returnStream")
      · left; simp [hcode, hrs]
      · rcases bodyEv with chunks | msg
        · rcases hjp : jsonParse (String.join chunks) with v | m
          · left; simp [hcode, hrs, hjp]
          · left; simp [hcode, hrs, hjp]
        · left; simp [hcode, hrs]

theorem runRequest_error_eq (jsonParse : String → Except String JSVal)
    (tr : Transport) (p : JSVal) (options : List (String × JSVal))
    (protocol : String) (body : Option String) (msg : String)
    (htr : tr options body = .errorEvent msg) :
    runRequest jsonParse tr p options protocol body
      = (.rejected ("undefined error: " ++ msg), baseEffects options body) := by
  unfold runRequest
  rw [htr]
  rfl

theorem runRequest_timeout_eq (jsonParse : String → Except String JSVal)
    (tr : Transport) (p : JSVal) (options : List (String × JSVal))
    (protocol : String) (body : Option String)
    (htr : tr options body = .timeoutFired) :
    runRequest jsonParse tr p options protocol body
      = (.rejected ("undefined error: request timed out (timeout: "
            ++ jsToString (resolveTimeout p) ++ "ms)"),
         baseEffects options body ++ [Effect.aborted]) := by
  unfold runRequest
  rw [htr]
  rfl

theorem runRequest_status_eq (jsonParse : String → Except String JSVal)
    (tr : Transport) (p : JSVal) (options : List (String × JSVal))
    (protocol : String) (body : Option String) (code : Int)
    (bodyEv : BodyEvent)
    (htr : tr options body = .response code bodyEv)
    (hcode : code < 200 ∨ code ≥ 300) :
    runRequest jsonParse tr p options protocol body
      = (.rejected ("Query returned status code of " ++ intDecimal code),
         baseEffects options body) := by
  unfold runRequest
  simp only [htr]
  rw [if_pos hcode]

theorem riquest_dispatch_err (parseURL : String → Except String ParsedURL)
    (jsonParse : String → Except String JSVal) (tr : Transport) (p : JSVal)
    (u : ParsedURL) (e : String)
    (hval : validateHttpParams p = none)
    (hurl : parseURL (jsStr (getField p "url")) = .ok u)
    (hproto : replaceFirstColon u.protocol = "http"
      ∨ replaceFirstColon u.protocol = "https")
    (hrb : requestBodyOf p = some (.error e)) :
    riquest parseURL jsonParse tr p
      = (.rejected ("Could not set request body: " ++ e),
         [.requestCreated (buildOptions1 p u (replaceFirstColon u.protocol)),
          .requestEnded]) := by
  unfold riquest
  simp only [hval, hurl]
  rcases hproto with h | h <;> rw [h]
  · rw [if_pos (Or.inl rfl)]
    simp only [hrb]
  · rw [if_pos (Or.inr rfl)]
    simp only [hrb]

theorem riquest_dispatch_ok (parseURL : String → Except String ParsedURL)
    (jsonParse : String → Except String JSVal) (tr : Transport) (p : JSVal)
    (u : ParsedURL) (s : String)
    (hval : validateHttpParams p = none)
    (hurl : parseURL (jsStr (getField p "url")) = .ok u)
    (hproto : replaceFirstColon u.protocol = "http"
      ∨ replaceFirstColon u.protocol = "https")
    (hrb : requestBodyOf p = some (.ok s)) :
    riquest parseURL jsonParse tr p
      = runRequest jsonParse tr p
          (buildOptions1 p u (replaceFirstColon u.protocol))
          (replaceFirstColon u.protocol)
          (if methodResolved p != "GET" && s != "" then some s else none) := by
  unfold riquest
  simp only [hval, hurl]
  rcases hproto with h | h <;> rw [h]
  · rw [if_pos (Or.inl rfl)]
    simp only [hrb]
    rfl
  · rw [if_pos (Or.inr rfl)]
    simp only [hrb]
    rfl

theorem riquest_dispatch_none (parseURL : String → Except String ParsedURL)
    (jsonParse : String → Except String JSVal) (tr : Transport) (p : JSVal)
    (u : ParsedURL)
    (hval : validateHttpParams p = none)
    (hurl : parseURL (jsStr (getField p "url")) = .ok u)
    (hproto : replaceFirstColon u.protocol = "http"
      ∨ replaceFirstColon u.protocol = "https")
    (hrb : requestBodyOf p = none) :
    riquest parseURL jsonParse tr p
      = runRequest jsonParse tr p
          (buildOptions1 p u (replaceFirstColon u.protocol))
          (replaceFirstColon u.protocol) none := by
  unfold riquest
  simp only [hval, hurl]
  rcases hproto with h | h <;> rw [h]
  · rw [if_pos (Or.inl rfl)]
    simp only [hrb]
  · rw [if_pos (Or.inr rfl)]
    simp only [hrb]

/-! ## The claims -/

/-- Claim C1 (code bug): with caller headers `{ Accept: null }`, the
hand-rolled variant retains `Accept: application/json` in the outgoing
headers — `Object.assign` places the two JSON defaults last, so the
caller's `null` is overwritten rather than surviving to be dropped by
`removeNilValue` — contradicting the claim, the source's own comment
("Passing either or both default key with null value will remove them"),
and the schema variant, whose merge order does drop the key. -/
theorem claim_C1_headers_null_retained :
    buildHeaders1 (.obj [("Accept", JSVal.null)])
      = [("Accept", .str "application/json"),
         ("Content-Type", .str "application/json")]
    ∧ buildHeaders2 (.obj [("Accept", JSVal.null)])
      = [("Content-Type", .str "application/json")]
    ∧ lookupEntries
        (buildOptions1 paramsHeadersNullAccept
          (ParsedURL.mk "https:" "host" "" "/" "" "") "https") "headers"
      = some (.obj [("Accept", .str "application/json"),
                    ("Content-Type", .str "application/json")]) :=
  ⟨rfl, rfl, rfl⟩

/-- Claim C2 (code bug): a transport error on an https request rejects
with the message "undefined error: boom", not "Https error: boom" — the
`capitalize` helper has no return statement, so the interpolated prefix is
the string "undefined".  The schema variant, using `_.capitalize`, does
produce the claimed prefix. -/
theorem claim_C2_error_prefix_undefined :
    (riquest parseHttpsHost jsonParseOne (fun _ _ => .errorEvent "boom")
        paramsPlainHttps).1 = .rejected "undefined error: boom"
    ∧ lodashCapitalize "https" = "Https"
    ∧ (riquest2 parseHttpsHost jsonParseOne (fun _ _ => .errorEvent "boom")
        paramsPlainHttps).1 = .rejected "Https error: boom" :=
  ⟨rfl, rfl, rfl⟩

/-- Claim C3, counterexample: on a request whose `data` cannot be
serialized the promise does reject with the serialization error, but a
request IS sent to the transport — the effect trace contains both the
request creation and `request.end()` (the rejecting branch lacks a
`return`, and the request handle was created before the body was
serialized). -/
theorem claim_C3_counterexample :
    (riquest parseHttpA jsonParseOne
        (fun _ _ => .response 200 (.ended ["1"])) paramsCircularGet).1
      = .rejected
          "Could not set request body: Converting circular structure to JSON"
    ∧ (riquest parseHttpA jsonParseOne
        (fun _ _ => .response 200 (.ended ["1"])) paramsCircularGet).2
      = [.requestCreated
           (buildOptions1 paramsCircularGet
             (ParsedURL.mk "http:" "a" "" "/" "" "") "http"),
         .requestEnded] :=
  ⟨rfl, rfl⟩

/-- Claim C3, amended: when `data` is present and fails JSON
serialization the call rejects with the serialization error and the body
is never written, but the transport request has already been created and
is still ended (sent with an empty body); the rejection is not free of
further transport side effects. -/
theorem claim_C3_serialization_error
    (parseURL : String → Except String ParsedURL)
    (jsonParse : String → Except String JSVal) (tr : Transport) (p : JSVal)
    (u : ParsedURL) (e : String)
    (hval : validateHttpParams p = none)
    (hurl : parseURL (jsStr (getField p "url")) = .ok u)
    (hproto : replaceFirstColon u.protocol = "http"
      ∨ replaceFirstColon u.protocol = "https")
    (hdata : truthy (getField p "data") = true)
    (hser : jsonStringify (getField p "data") = .error e) :
    riquest parseURL jsonParse tr p
      = (.rejected ("Could not set request body: " ++ e),
         [.requestCreated (buildOptions1 p u (replaceFirstColon u.protocol)),
          .requestEnded]) := by
  have hrb : requestBodyOf p = some (.error e) := by
    unfold requestBodyOf
    rw [if_pos hdata, hser]
  exact riquest_dispatch_err parseURL jsonParse tr p u e hval hurl hproto hrb

/-- Witness for the amended claim C3 at the circular-data GET fixture. -/
theorem claim_C3_serialization_error_witness :
    riquest parseHttpA jsonParseOne
        (fun _ _ => .response 204 (.ended [])) paramsCircularGet
      = (.rejected ("Could not set request body: " ++ circularMessage),
         [.requestCreated
            (buildOptions1 paramsCircularGet
              (ParsedURL.mk "http:" "a" "" "/" "" "") "http"),
          .requestEnded]) :=
  claim_C3_serialization_error parseHttpA jsonParseOne _ paramsCircularGet
    (ParsedURL.mk "http:" "a" "" "/" "" "") circularMessage rfl rfl
    (Or.inl rfl) rfl rfl

/-- Claim C4, counterexample: the two variants are observably different.
On the same input (`headers: { Accept: null }`) and the same transport
behaviour (one that answers 200 only when no `Accept` header is sent), the
hand-rolled variant rejects with a status error while the schema variant
resolves with the parsed body. -/
theorem claim_C4_variants_diverge :
    (riquest parseHttpsHost jsonParseOne acceptSensitiveTransport
        paramsHeadersNullAccept).1
      = .rejected "Query returned status code of 500"
    ∧ (riquest2 parseHttpsHost jsonParseOne acceptSensitiveTransport
        paramsHeadersNullAccept).1
      = .resolved (.num 1)
    ∧ (riquest parseHttpsHost jsonParseOne acceptSensitiveTransport
        paramsHeadersNullAccept).1
      ≠ (riquest2 parseHttpsHost jsonParseOne acceptSensitiveTransport
        paramsHeadersNullAccept).1 :=
  ⟨rfl, rfl, fun h => nomatch h⟩

/-- Witness for the amended claim C4 at a header binding neither default
key. -/
theorem claim_C4_headers_agree_witness :
    lookupEntries (buildHeaders1 (.obj [("X-Token", JSVal.str "t")])) "X-Token"
      = lookupEntries (buildHeaders2 (.obj [("X-Token", JSVal.str "t")]))
          "X-Token" :=
  claim_C4_headers_agree [("X-Token", .str "t")] rfl rfl "X-Token"

/-- Claim C5 (code bug): an invalid `method` (here the number 123) does
reject with a validation error naming `method`, but the reported received
type is always "undefined" — the message interpolates `typeof method`, a
bare undeclared identifier, instead of `typeof params.method` — whereas
the type actually received is "number". -/
theorem claim_C5_method_message_bug :
    validateHttpParams (.obj [("url", .str "http://a/"), ("method", .num 123)])
      = some "method must be a string, undefined given"
    ∧ typeofJS (.num 123) = "number"
    ∧ (riquest parseHttpA jsonParseOne
        (fun _ _ => .response 200 (.ended ["1"]))
        (.obj [("url", .str "http://a/"), ("method", .num 123)])).1
      = .rejected
          "Error on request params: method must be a string, undefined given" :=
  ⟨rfl, rfl, rfl⟩

/-- Claim C6: a response whose status code lies outside [200, 300) makes
the call reject with the status error carrying the code; the outcome is
the same for every body event (no body is read or buffered) and for every
value of `returnStream` (no hypothesis on it is needed). -/
theorem claim_C6_status_error (parseURL : String → Except String ParsedURL)
    (jsonParse : String → Except String JSVal) (p : JSVal) (u : ParsedURL)
    (code : Int) (bodyEv : BodyEvent)
    (hval : validateHttpParams p = none)
    (hurl : parseURL (jsStr (getField p "url")) = .ok u)
    (hproto : replaceFirstColon u.protocol = "http"
      ∨ replaceFirstColon u.protocol = "https")
    (hser : serializationOk p = true)
    (hcode : code < 200 ∨ code ≥ 300) :
    (riquest parseURL jsonParse (fun _ _ => .response code bodyEv) p).1
      = .rejected ("Query returned status code of " ++ intDecimal code) := by
  rcases hrb : requestBodyOf p with - | exc
  · rw [riquest_dispatch_none parseURL jsonParse _ p u hval hurl hproto hrb]
    rw [runRequest_status_eq _ _ _ _ _ _ code bodyEv rfl hcode]
  · rcases exc with e | s
    · exfalso
      unfold serializationOk at hser
      rw [hrb] at hser
      simp at hser
    · rw [riquest_dispatch_ok parseURL jsonParse _ p u s hval hurl hproto hrb]
      rw [runRequest_status_eq _ _ _ _ _ _ code bodyEv rfl hcode]

/-- Witness for claim C6: a 404 response rejects with the status error
even though `returnStream` is true and a body was offered. -/
theorem claim_C6_status_error_witness :
    (riquest parseHttpA jsonParseOne (fun _ _ => .response 404 (.ended ["x"]))
        paramsReturnStream).1
      = .rejected "Query returned status code of 404" :=
  claim_C6_status_error parseHttpA jsonParseOne paramsReturnStream
    (ParsedURL.mk "http:" "a" "" "/" "" "") 404 (.ended ["x"]) rfl rfl
    (Or.inl rfl) rfl (by decide)

/-- Claim C7: the resolved options carry the URL's explicit port when it
is integer-parseable and the scheme's default (80 for http, 443 for https)
otherwise, and the resolved path is the concatenation of pathname, search
and hash. -/
theorem claim_C7_port_path (p : JSVal) (u : ParsedURL) (protocol : String)
    (hproto : protocol = "http" ∨ protocol = "https") :
    (∀ k : Int, jsParseInt u.port = some k →
        lookupEntries (buildOptions1 p u protocol) "port" = some (.num k))
    ∧ (jsParseInt u.port = none →
        lookupEntries (buildOptions1 p u protocol) "port"
          = some (.num (if protocol = "http" then 80 else 443)))
    ∧ lookupEntries (buildOptions1 p u protocol) "path"
        = some (.str (u.pathname ++ u.search ++ u.hash)) := by
  refine ⟨?_, ?_, lookup_path_buildOptions1 p u protocol⟩
  · intro k hk
    rw [lookup_port_buildOptions1]
    unfold resolvePort canParseIntStr
    rw [hk]
    rfl
  · intro hk
    rw [lookup_port_buildOptions1]
    unfold resolvePort canParseIntStr
    rw [hk]
    rcases hproto with h | h <;> rw [h] <;> rfl

/-- Witness for claim C7: `https://host/path?q=1#frag` with no explicit
port resolves to port 443 and path `/path?q=1#frag`. -/
theorem claim_C7_port_path_witness :
    lookupEntries
        (buildOptions1 paramsPlainHttps
          (ParsedURL.mk "https:" "host" "" "/path" "?q=1" "#frag") "https")
        "port" = some (.num 443)
    ∧ lookupEntries
        (buildOptions1 paramsPlainHttps
          (ParsedURL.mk "https:" "host" "" "/path" "?q=1" "#frag") "https")
        "path" = some (.str "/path?q=1#frag") :=
  ⟨(claim_C7_port_path paramsPlainHttps
      (ParsedURL.mk "https:" "host" "" "/path" "?q=1" "#frag") "https"
      (Or.inr rfl)).2.1 rfl,
   (claim_C7_port_path paramsPlainHttps
      (ParsedURL.mk "https:" "host" "" "/path" "?q=1" "#frag") "https"
      (Or.inr rfl)).2.2⟩

/-- Claim C8: with `data` present and serializable, its JSON text is
written to the request body exactly when the resolved (upper-cased,
defaulted) method is not GET; for GET the data is silently ignored. -/
theorem claim_C8_body_written_iff_non_get
    (parseURL : String → Except String ParsedURL)
    (jsonParse : String → Except String JSVal) (tr : Transport) (p : JSVal)
    (u : ParsedURL) (fields : List (String × JSVal)) (s : String)
    (hval : validateHttpParams p = none)
    (hurl : parseURL (jsStr (getField p "url")) = .ok u)
    (hproto : replaceFirstColon u.protocol = "http"
      ∨ replaceFirstColon u.protocol = "https")
    (hdata : getField p "data" = .obj fields)
    (hser : jsonStringify (.obj fields) = .ok s) :
    (methodResolved p ≠ "GET" →
        Effect.bodyWritten s ∈ (riquest parseURL jsonParse tr p).2)
    ∧ (methodResolved p = "GET" →
        ∀ t, Effect.bodyWritten t ∉ (riquest parseURL jsonParse tr p).2) := by
  have hrb : requestBodyOf p = some (.ok s) := by
    unfold requestBodyOf
    rw [hdata]
    rw [if_pos (show truthy (JSVal.obj fields) = true from rfl), hser]
  have hs_ne : s ≠ "" := by
    unfold jsonStringify at hser
    by_cases hc : hasCirc (.obj fields) = true
    · rw [if_pos hc] at hser
      exact absurd hser (fun h => nomatch h)
    · rw [if_neg hc] at hser
      have hsr : render (.obj fields) = s := by
        injection hser
      intro hempty
      rw [hempty] at hsr
      have hlen := congrArg String.length hsr
      rw [show render (JSVal.obj fields)
          = "\x7b" ++ renderFields fields ++ "\x7d" from rfl] at hlen
      rw [String.length_append, String.length_append] at hlen
      rw [show ("\x7b" : String).length = 1 from rfl,
        show ("\x7d" : String).length = 1 from rfl,
        show ("" : String).length = 0 from rfl] at hlen
      omega
  rw [riquest_dispatch_ok parseURL jsonParse tr p u s hval hurl hproto hrb]
  constructor
  · intro hm
    have hcond : (methodResolved p != "GET" && s != "") = true := by
      simp [bne_iff_ne, hm, hs_ne]
    rw [hcond]
    rcases runRequest_effects jsonParse tr p
        (buildOptions1 p u (replaceFirstColon u.protocol))
        (replaceFirstColon u.protocol)
        (if true = true then some s else none) with he | he <;> rw [he] <;>
      simp [baseEffects]
  · intro hm t
    have hcond : (methodResolved p != "GET" && s != "") = false := by
      simp [hm]
    rw [hcond]
    rcases runRequest_effects jsonParse tr p
        (buildOptions1 p u (replaceFirstColon u.protocol))
        (replaceFirstColon u.protocol)
        (if false = true then some s else none) with he | he <;> rw [he] <;>
      simp [baseEffects]

/-- Witness for claim C8: `method: 'post', data: {a: 1}` writes exactly
the JSON text to the body. -/
theorem claim_C8_body_written_witness :
    methodResolved paramsPostData ≠ "GET"
    ∧ Effect.bodyWritten "\x7b\"a\":1\x7d"
        ∈ (riquest parseHttpA jsonParseOne
            (fun _ _ => .response 200 (.ended ["1"])) paramsPostData).2 :=
  ⟨by decide,
   (claim_C8_body_written_iff_non_get parseHttpA jsonParseOne _ paramsPostData
      (ParsedURL.mk "http:" "a" "" "/" "" "") [("a", .num 1)]
      "\x7b\"a\":1\x7d" rfl rfl (Or.inl rfl) rfl rfl).1 (by decide)⟩

/-- Claim C9: the armed timeout is the caller-supplied number when one is
given and 3000 otherwise; when the timeout fires the in-flight request is
aborted and the call rejects with a message carrying the configured
value. -/
theorem claim_C9_timeout (parseURL : String → Except String ParsedURL)
    (jsonParse : String → Except String JSVal) (p : JSVal) (u : ParsedURL)
    (hval : validateHttpParams p = none)
    (hurl : parseURL (jsStr (getField p "url")) = .ok u)
    (hproto : replaceFirstColon u.protocol = "http"
      ∨ replaceFirstColon u.protocol = "https")
    (hser : serializationOk p = true) :
    (∀ n : Int, getField p "timeout" = .num n → resolveTimeout p = .num n)
    ∧ (isNilJ (getField p "timeout") = true → resolveTimeout p = .num 3000)
    ∧ (riquest parseURL jsonParse (fun _ _ => .timeoutFired) p).1
        = .rejected ("undefined error: request timed out (timeout: "
            ++ jsToString (resolveTimeout p) ++ "ms)")
    ∧ Effect.aborted
        ∈ (riquest parseURL jsonParse (fun _ _ => .timeoutFired) p).2 := by
  have key : ∃ opts b,
      riquest parseURL jsonParse (fun _ _ => .timeoutFired) p
        = (.rejected ("undefined error: request timed out (timeout: "
              ++ jsToString (resolveTimeout p) ++ "ms)"),
           baseEffects opts b ++ [Effect.aborted]) := by
    rcases hrb : requestBodyOf p with - | exc
    · refine ⟨buildOptions1 p u (replaceFirstColon u.protocol), none, ?_⟩
      rw [riquest_dispatch_none parseURL jsonParse _ p u hval hurl hproto hrb]
      rw [runRequest_timeout_eq _ _ _ _ _ _ rfl]
    · rcases exc with e | s
      · exfalso
        unfold serializationOk at hser
        rw [hrb] at hser
        simp at hser
      · refine ⟨buildOptions1 p u (replaceFirstColon u.protocol),
          if methodResolved p != "GET" && s != "" then some s else none, ?_⟩
        rw [riquest_dispatch_ok parseURL jsonParse _ p u s hval hurl hproto hrb]
        rw [runRequest_timeout_eq _ _ _ _ _ _ rfl]
  obtain ⟨opts, b, hrun⟩ := key
  refine ⟨resolveTimeout_given p, resolveTimeout_absent p, ?_, ?_⟩
  · rw [hrun]
  · rw [hrun]
    simp

/-- Witness for claim C9 with `timeout: 250`. -/
theorem claim_C9_timeout_witness :
    resolveTimeout paramsTimeout250 = .num 250
    ∧ (riquest parseHttpA jsonParseOne (fun _ _ => .timeoutFired)
        paramsTimeout250).1
      = .rejected "undefined error: request timed out (timeout: 250ms)"
    ∧ Effect.aborted
        ∈ (riquest parseHttpA jsonParseOne (fun _ _ => .timeoutFired)
            paramsTimeout250).2 :=
  ⟨(claim_C9_timeout parseHttpA jsonParseOne paramsTimeout250
      (ParsedURL.mk "http:" "a" "" "/" "" "") rfl rfl (Or.inl rfl) rfl).1
      250 rfl,
   (claim_C9_timeout parseHttpA jsonParseOne paramsTimeout250
      (ParsedURL.mk "http:" "a" "" "/" "" "") rfl rfl (Or.inl rfl) rfl).2.2.1,
   (claim_C9_timeout parseHttpA jsonParseOne paramsTimeout250
      (ParsedURL.mk "http:" "a" "" "/" "" "") rfl rfl (Or.inl rfl) rfl).2.2.2⟩

/-- Claim C10: when `data` is present but not serializable, the call
rejects with the serialization error with no hypothesis on the method —
serialization is attempted before the method is consulted, so the
rejection happens even for GET requests whose body would never be
written. -/
theorem claim_C10_serialization_regardless_of_method
    (parseURL : String → Except String ParsedURL)
    (jsonParse : String → Except String JSVal) (tr : Transport) (p : JSVal)
    (u : ParsedURL) (e : String)
    (hval : validateHttpParams p = none)
    (hurl : parseURL (jsStr (getField p "url")) = .ok u)
    (hproto : replaceFirstColon u.protocol = "http"
      ∨ replaceFirstColon u.protocol = "https")
    (hdata : truthy (getField p "data") = true)
    (hser : jsonStringify (getField p "data") = .error e) :
    (riquest parseURL jsonParse tr p).1
      = .rejected ("Could not set request body: " ++ e) := by
  have hrb : requestBodyOf p = some (.error e) := by
    unfold requestBodyOf
    rw [if_pos hdata, hser]
  rw [riquest_dispatch_err parseURL jsonParse tr p u e hval hurl hproto hrb]

/-- Witness for claim C10: circular `data` on a GET request still rejects
with the serialization error. -/
theorem claim_C10_serialization_witness :
    methodResolved paramsCircularGet = "GET"
    ∧ (riquest parseHttpA jsonParseOne
        (fun _ _ => .response 200 (.ended ["1"])) paramsCircularGet).1
      = .rejected "Could not set request body: Converting circular structure to JSON" :=
  ⟨rfl,
   claim_C10_serialization_regardless_of_method parseHttpA jsonParseOne _
     paramsCircularGet (ParsedURL.mk "http:" "a" "" "/" "" "")
     circularMessage rfl rfl (Or.inl rfl) rfl rfl⟩

end Riquest
